import Mathlib

/-!
Verification of the LAMMPS Python ctypes binding (`python/lammps/core.py`).

The development shallowly embeds the wrapper methods of the `lammps` class as
pure Lean functions.  The native shared library (`liblammps`) is not part of
the sources; it is represented abstractly by a `Native` structure whose fields
describe what the engine would answer to each native entry point.  Every
embedded method returns its Python result (as a `PyVal`, or an exception via
`Except`) together with the list of native entry-point invocations it performs
(`List NCall`), so that claims of the form "this call is / is not made" can be
stated and decided.

Conventions:
* Python `None` results and ctypes `NULL` pointers are modelled explicitly.
* C `double` values are carried opaquely as `Rat`; no claim depends on
  floating-point arithmetic, only on how many values are produced and where
  they travel.
* A text argument is modelled as a `String`; the empty string models the
  falsy inputs (`None` or `""`) that the source tests with `if name:`.
* Error-message text is modelled as `List Char` so that the bounded-buffer
  truncation performed by `create_string_buffer(100)` can be stated.
-/

namespace Lammps

/-- Python exception values that the wrapper can raise.
`mpiAbort` is `MPIAbortException`, `generic` is a plain `Exception` carrying
the error message; `valueErr` models the `ValueError` ctypes raises on a NULL
pointer dereference (`ptr[0]` with a NULL pointer); `typeErr` and `nameErr`
model Python `TypeError` / `NameError`. -/
inductive PyExc where
  | mpiAbort (msg : List Char)
  | generic (msg : List Char)
  | valueErr
  | typeErr
  | nameErr
deriving DecidableEq, Repr

/-- Python-level values returned by the wrapper methods. -/
inductive PyVal where
  | none
  | int (i : Int)
  | float (q : Rat)
  | str (s : String)
  | ilist (xs : List Int)
  | flist (xs : List Rat)
  | ibuf (xs : List Int)
  | dbuf (xs : List Rat)
  | ptr (isNull : Bool)
deriving DecidableEq, Repr

/-- One invocation of a native entry point, with the arguments the claims
talk about.  `handleOk` records whether the `self.lmp` handle passed to the
native function was non-null (`true`) or null (`false`). -/
inductive NCall where
  | cmd (handleOk : Bool) (text : String)
  | fileCmd (handleOk : Bool) (path : String)
  | getThermo (handleOk : Bool) (nm : String)
  | extractSetting (handleOk : Bool) (nm : String)
  | setVariable (handleOk : Bool) (nm val : String)
  | getNatoms (handleOk : Bool)
  | gatherAtomsQ (handleOk : Bool) (nm : String) (ty : Int) (cnt : Nat)
  | gatherQ (handleOk : Bool) (nm : String) (ty : Int) (cnt : Nat)
  | gatherConcatQ (handleOk : Bool) (nm : String) (ty : Int) (cnt : Nat)
  | closeH (handleOk : Bool)
  | globalDtypeQ (handleOk : Bool) (nm : String)
  | extractGlobalQ (handleOk : Bool) (nm : String)
  | atomDtypeQ (handleOk : Bool) (nm : String)
  | extractAtomQ (handleOk : Bool) (nm : String)
  | extractComputeQ (handleOk : Bool) (idn : String) (style ty : Int)
  | extractFixQ (handleOk : Bool) (idn : String) (style ty nrow ncol : Int)
  | extractVariableQ (handleOk : Bool) (nm : String) (grp : Option String)
  | freeQ
  | createAtomsQ (handleOk : Bool) (n : Nat)
  | configHasExcQ
  | hasErrorQ (handleOk : Bool)
  | lastErrorQ (handleOk : Bool)
  | styleCountQ (handleOk : Bool) (cat : String)
  | styleNameQ (handleOk : Bool) (cat : String) (idx : Nat)
  | idCountQ (handleOk : Bool) (cat : String)
  | idNameQ (handleOk : Bool) (cat : String) (idx : Nat)
  | pkgCountQ
  | pkgNameQ (idx : Nat)
  | pluginCountQ (handleOk : Bool)
  | pluginNameQ (idx : Nat)
deriving DecidableEq, Repr

/-- Abstract model of the native LAMMPS library: what each entry point would
answer.  Buffer-filling entry points are modelled by the list of values the
engine writes into the supplied buffer. -/
structure Native where
  hasExc : Bool
  hasErr : Bool
  errType : Int
  errMsg : List Char
  natoms : Nat
  thermo : String → Rat
  setting : String → Int
  setVar : String → String → Int
  gatherAtomsI : String → Nat → List Int
  gatherAtomsD : String → Nat → List Rat
  gatherI : String → Nat → List Int
  gatherD : String → Nat → List Rat
  gatherConcatI : String → Nat → List Int
  gatherConcatD : String → Nat → List Rat
  globalDtype : String → Int
  globalAddr : String → Bool
  globalReadI : String → Nat → Int
  globalReadD : String → Nat → Rat
  globalReadS : String → String
  atomDtype : String → Int
  atomAddr : String → Bool
  computeAddr : String → Int → Int → Bool
  computeReadD : String → Int → Int → Nat → Rat
  computeReadI : String → Int → Int → Nat → Int
  fixAddr : String → Int → Int → Int → Int → Bool
  fixReadD : String → Int → Int → Int → Int → Nat → Rat
  fixReadI : String → Int → Int → Int → Int → Nat → Int
  varAddr : String → Option String → Bool
  varReadD : String → Option String → Nat → Rat
  createAtomsN : Nat → Option (List Int) → List Int → List Rat →
    Option (List Rat) → Option (List Int) → Int → Int
  styleCount : String → Nat
  styleName : String → Nat → String
  idCount : String → Nat
  idName : String → Nat → String
  pkgCount : Nat
  pkgName : Nat → String
  pluginCount : Nat
  pluginSty : Nat → String
  pluginNam : Nat → String

/-- The wrapper instance state relevant to handle lifetime: `lmp` is `true`
when `self.lmp` holds a non-null handle, `opened` mirrors the `self.opened`
flag. -/
structure Wrapper where
  lmp : Bool
  opened : Nat
deriving DecidableEq, Repr

/-! ### Data-type / style / type constants

Modelled from the spec: the constants come from `python/lammps/constants.py`,
which is not among the sources; the spec describes a datatype tag
(32-bit integer, 64-bit integer, double, text, and 2d variants), global /
per-atom / local style discriminants, scalar / vector / array type
discriminants and an equal- vs atom-style variable discriminant.  The values
below are chosen distinct; auto-detection is requested by the Python value
`None`, modelled as `Option.none`. -/

def LAMMPS_INT : Int := 0
def LAMMPS_INT_2D : Int := 1
def LAMMPS_DOUBLE : Int := 2
def LAMMPS_DOUBLE_2D : Int := 3
def LAMMPS_INT64 : Int := 4
def LAMMPS_INT64_2D : Int := 5
def LAMMPS_STRING : Int := 6
def LAMMPS_AUTODETECT : Option Int := Option.none

def LMP_STYLE_GLOBAL : Int := 0
def LMP_STYLE_ATOM : Int := 1
def LMP_STYLE_LOCAL : Int := 2

def LMP_TYPE_SCALAR : Int := 0
def LMP_TYPE_VECTOR : Int := 1
def LMP_TYPE_ARRAY : Int := 2
def LMP_SIZE_VECTOR : Int := 3
def LMP_SIZE_ROWS : Int := 4
def LMP_SIZE_COLS : Int := 5

def LMP_VAR_EQUAL : Int := 0
def LMP_VAR_ATOM : Int := 1

/-! ### The error-translation shim (`ExceptionCheck` / `_lammps_exception`) -/

/-- Python `str.strip()` on character lists. -/
def pyStrip (l : List Char) : List Char :=
  ((l.dropWhile Char.isWhitespace).reverse.dropWhile Char.isWhitespace).reverse

/-- The error message fetched by `_lammps_exception`: the native side writes
the last error message into a `create_string_buffer(100)` (at most 99
characters before the terminator), and the wrapper strips whitespace. -/
def fetchedErrMsg (nat : Native) : List Char :=
  pyStrip (nat.errMsg.take 99)

/-- `lammps._lammps_exception` (core.py): fetch the last error message and
error type; an error type of 2 yields `MPIAbortException`, anything else a
generic `Exception` carrying the message. -/
def lammpsException (nat : Native) : PyExc :=
  if nat.errType = 2 then PyExc.mpiAbort (fetchedErrMsg nat)
  else PyExc.generic (fetchedErrMsg nat)

/-- `ExceptionCheck.__exit__`: if the library reports exception support and
the engine error flag is set, raise the translated exception (replacing any
exception already propagating out of the scope body); otherwise let the scope
exit as it was (`incoming`). -/
def exceptionCheckExit (nat : Native) (incoming : Option PyExc) : Option PyExc :=
  if nat.hasExc && nat.hasErr then some (lammpsException nat) else incoming

/-- The native calls performed by `ExceptionCheck.__exit__` (and, when it
raises, by `_lammps_exception`): `lammps_config_has_exceptions`, then -
owing to the short-circuiting `and` - `lammps_has_error` only when exception
support is reported, and `lammps_get_last_error_message` only when raising. -/
def shimTail (nat : Native) (lmp : Bool) : List NCall :=
  if nat.hasExc then
    if nat.hasErr then
      [NCall.configHasExcQ, NCall.hasErrorQ lmp, NCall.lastErrorQ lmp]
    else [NCall.configHasExcQ, NCall.hasErrorQ lmp]
  else [NCall.configHasExcQ]

/-- `with ExceptionCheck(self): body` - runs the body, then the `__exit__`
check; the trace is the native calls of the body followed by the queries
made by the shim itself. -/
def withShim {α : Type} (nat : Native) (lmp : Bool)
    (body : Except PyExc α × List NCall) : Except PyExc α × List NCall :=
  let incoming : Option PyExc :=
    match body.1 with
    | Except.error e => some e
    | Except.ok _ => Option.none
  (match exceptionCheckExit nat incoming with
   | some e => Except.error e
   | Option.none => body.1,
   body.2 ++ shimTail nat lmp)

/-! ### Handle lifecycle: `close` -/

/-- `lammps.close` (core.py): call `lammps_close` only when `self.opened` is
truthy, then null the handle and clear the flag. -/
def close (w : Wrapper) : Wrapper × List NCall :=
  ({ lmp := false, opened := 0 },
   if w.opened ≠ 0 then [NCall.closeH w.lmp] else [])

/-- Recogniser for the native destroy entry point in a trace. -/
def isDestroyCall : NCall → Bool
  | NCall.closeH _ => true
  | _ => false

/-! ### Simple text-argument operations -/

/-- `lammps.command` (core.py): empty command short-circuits (plain `return`,
i.e. `None`), otherwise `lammps_command` runs under the shim. -/
def command (nat : Native) (lmp : Bool) (cmd : String) :
    Except PyExc PyVal × List NCall :=
  if cmd.isEmpty then (Except.ok PyVal.none, [])
  else withShim nat lmp (Except.ok PyVal.none, [NCall.cmd lmp cmd])

/-- `lammps.file` (core.py): empty path short-circuits, otherwise
`lammps_file` runs under the shim. -/
def file (nat : Native) (lmp : Bool) (path : String) :
    Except PyExc PyVal × List NCall :=
  if path.isEmpty then (Except.ok PyVal.none, [])
  else withShim nat lmp (Except.ok PyVal.none, [NCall.fileCmd lmp path])

/-- `lammps.get_thermo` (core.py): empty name returns `None`, otherwise the
`lammps_get_thermo` double is returned from under the shim. -/
def get_thermo (nat : Native) (lmp : Bool) (name : String) :
    Except PyExc PyVal × List NCall :=
  if name.isEmpty then (Except.ok PyVal.none, [])
  else
    withShim nat lmp
      (Except.ok (PyVal.float (nat.thermo name)), [NCall.getThermo lmp name])

/-- `lammps.extract_setting` (core.py): empty name returns `None`; the native
call is made without any shim. -/
def extract_setting (nat : Native) (lmp : Bool) (name : String) :
    Except PyExc PyVal × List NCall :=
  if name.isEmpty then (Except.ok PyVal.none, [])
  else (Except.ok (PyVal.int (nat.setting name)), [NCall.extractSetting lmp name])

/-- `lammps.set_variable` (core.py): an empty (falsy) name or value returns
the sentinel `-1`; otherwise `lammps_set_variable` runs under the shim and
its integer result is returned. -/
def set_variable (nat : Native) (lmp : Bool) (name value : String) :
    Except PyExc PyVal × List NCall :=
  if name.isEmpty then (Except.ok (PyVal.int (-1)), [])
  else if value.isEmpty then (Except.ok (PyVal.int (-1)), [])
  else
    withShim nat lmp
      (Except.ok (PyVal.int (nat.setVar name value)),
       [NCall.setVariable lmp name value])

/-! ### Gather family

The source encodes a truthy name but has no empty-name early return: an empty
(falsy) name is passed through to the native call (for Python `None`, as a
null pointer), and `get_natoms` - a native entry point - is queried before
any check.  The native call writes into a freshly allocated zeroed ctypes
buffer of `count*natoms` elements; writing cannot change the allocation size,
which `writeBuf` models. -/

/-- Overwrite a fixed-size buffer in place with the values the native side
writes; the allocation length never changes. -/
def writeBuf {α : Type} (buf vals : List α) : List α :=
  vals.take buf.length ++ buf.drop vals.length

theorem writeBuf_length {α : Type} (buf vals : List α) :
    (writeBuf buf vals).length = buf.length := by
  simp [writeBuf]
  omega

/-- `lammps.gather_atoms` (core.py): `lammps_get_natoms`, then under the shim
either an int buffer (`type == 0`), a double buffer (`type == 1`), or `None`. -/
def gather_atoms (nat : Native) (lmp : Bool) (name : String) (ty : Int)
    (count : Nat) : Except PyExc PyVal × List NCall :=
  let natoms := nat.natoms
  let body : Except PyExc PyVal × List NCall :=
    if ty = 0 then
      (Except.ok (PyVal.ibuf (writeBuf (List.replicate (count * natoms) (0 : Int))
          (nat.gatherAtomsI name count))),
       [NCall.gatherAtomsQ lmp name ty count])
    else if ty = 1 then
      (Except.ok (PyVal.dbuf (writeBuf (List.replicate (count * natoms) (0 : Rat))
          (nat.gatherAtomsD name count))),
       [NCall.gatherAtomsQ lmp name ty count])
    else (Except.ok PyVal.none, [])
  let r := withShim nat lmp body
  (r.1, NCall.getNatoms lmp :: r.2)

/-- `lammps.gather` (core.py): same shape as `gather_atoms`, on the
`lammps_gather` entry point. -/
def gather (nat : Native) (lmp : Bool) (name : String) (ty : Int)
    (count : Nat) : Except PyExc PyVal × List NCall :=
  let natoms := nat.natoms
  let body : Except PyExc PyVal × List NCall :=
    if ty = 0 then
      (Except.ok (PyVal.ibuf (writeBuf (List.replicate (count * natoms) (0 : Int))
          (nat.gatherI name count))),
       [NCall.gatherQ lmp name ty count])
    else if ty = 1 then
      (Except.ok (PyVal.dbuf (writeBuf (List.replicate (count * natoms) (0 : Rat))
          (nat.gatherD name count))),
       [NCall.gatherQ lmp name ty count])
    else (Except.ok PyVal.none, [])
  let r := withShim nat lmp body
  (r.1, NCall.getNatoms lmp :: r.2)

/-- `lammps.gather_concat` (core.py): same shape as `gather`, on the
`lammps_gather_concat` entry point. -/
def gather_concat (nat : Native) (lmp : Bool) (name : String) (ty : Int)
    (count : Nat) : Except PyExc PyVal × List NCall :=
  let natoms := nat.natoms
  let body : Except PyExc PyVal × List NCall :=
    if ty = 0 then
      (Except.ok (PyVal.ibuf (writeBuf (List.replicate (count * natoms) (0 : Int))
          (nat.gatherConcatI name count))),
       [NCall.gatherConcatQ lmp name ty count])
    else if ty = 1 then
      (Except.ok (PyVal.dbuf (writeBuf (List.replicate (count * natoms) (0 : Rat))
          (nat.gatherConcatD name count))),
       [NCall.gatherConcatQ lmp name ty count])
    else (Except.ok PyVal.none, [])
  let r := withShim nat lmp body
  (r.1, NCall.getNatoms lmp :: r.2)

/-! ### Datatype-polymorphic extraction -/

/-- `lammps.extract_global_datatype` (core.py): empty name returns `None`,
otherwise the native datatype tag. -/
def extract_global_datatype (nat : Native) (lmp : Bool) (name : String) :
    Option Int × List NCall :=
  if name.isEmpty then (Option.none, [])
  else (some (nat.globalDtype name), [NCall.globalDtypeQ lmp name])

/-- `lammps.extract_atom_datatype` (core.py). -/
def extract_atom_datatype (nat : Native) (lmp : Bool) (name : String) :
    Option Int × List NCall :=
  if name.isEmpty then (Option.none, [])
  else (some (nat.atomDtype name), [NCall.atomDtypeQ lmp name])

/-- The `target_type` chosen by the dtype dispatch of `extract_global`: `int` for
the integer tags, `float` for the double tag, undefined otherwise (where a
later use raises `NameError`). -/
inductive TargetTy where
  | tint
  | tfloat
deriving DecidableEq, Repr

/-- Reading `target_type(ptr[i])` from the global buffer. -/
def readGlobal (nat : Native) (name : String) : TargetTy → Nat → PyVal
  | TargetTy.tint, i => PyVal.int (nat.globalReadI name i)
  | TargetTy.tfloat, i => PyVal.float (nat.globalReadD name i)

/-- Python `veclen > 1` where `veclen` may be a non-number (`None` from the
recursive `respa_levels` lookup): comparing `None` with an int raises
`TypeError`. -/
def pyGtOne : PyVal → Except PyExc Bool
  | PyVal.int i => Except.ok (1 < i)
  | PyVal.float q => Except.ok (1 < q)
  | _ => Except.error PyExc.typeErr

/-- The keywords the source gives a fixed vector length 3 (`vec_dict`). -/
def vecDictNames : List String :=
  ["boxlo", "boxhi", "sublo", "subhi", "sublo_lambda", "subhi_lambda",
   "periodicity"]

/-- Body of `lammps.extract_global` from the `if name:` guard down, with the
datatype `dt` and vector length `veclen` already determined: empty name
returns `None`; a null native pointer returns `None`; a string dtype decodes
the text; otherwise `target_type` dispatch reads one value or a list of
`veclen` values, raising `NameError` when the dtype tag matched no branch
(so `target_type` was never assigned). -/
def extract_global_core (nat : Native) (lmp : Bool) (name : String)
    (dt : Option Int) (veclen : PyVal) : Except PyExc PyVal × List NCall :=
  if name.isEmpty then (Except.ok PyVal.none, [])
  else
    let addr := nat.globalAddr name
    let calls := [NCall.extractGlobalQ lmp name]
    let target : Option TargetTy :=
      if dt = some LAMMPS_INT then some TargetTy.tint
      else if dt = some LAMMPS_INT64 then some TargetTy.tint
      else if dt = some LAMMPS_DOUBLE then some TargetTy.tfloat
      else Option.none
    let res : Except PyExc PyVal :=
      if addr then
        if dt = some LAMMPS_STRING then Except.ok (PyVal.str (nat.globalReadS name))
        else
          match pyGtOne veclen with
          | Except.error e => Except.error e
          | Except.ok true =>
            match target, veclen with
            | Option.none, _ => Except.error PyExc.nameErr
            | some t, PyVal.int vl =>
              Except.ok (match t with
                | TargetTy.tint =>
                  PyVal.ilist ((List.range vl.toNat).map (nat.globalReadI name))
                | TargetTy.tfloat =>
                  PyVal.flist ((List.range vl.toNat).map (nat.globalReadD name)))
            | some _, _ => Except.error PyExc.typeErr
          | Except.ok false =>
            match target with
            | Option.none => Except.error PyExc.nameErr
            | some t => Except.ok (readGlobal nat name t 0)
      else Except.ok PyVal.none
    (res, calls)

/-- `lammps.extract_global` (core.py): auto-detect the datatype when asked,
determine the vector length (3 for the box keywords, the value of
`extract_global(respa_levels, LAMMPS_INT)` for `respa_dt`, else 1), then
run the core.  The recursive `respa_levels` lookup is inlined as a core call
with dtype `LAMMPS_INT` and vector length 1, which is exactly what the
recursive call evaluates to. -/
def extract_global (nat : Native) (lmp : Bool) (name : String)
    (dtype : Option Int) : Except PyExc PyVal × List NCall :=
  let dtPair :=
    if dtype = LAMMPS_AUTODETECT then extract_global_datatype nat lmp name
    else (dtype, [])
  let dt := dtPair.1
  if name ∈ vecDictNames then
    let r := extract_global_core nat lmp name dt (PyVal.int 3)
    (r.1, dtPair.2 ++ r.2)
  else if name = "respa_dt" then
    let inner := extract_global_core nat lmp "respa_levels" (some LAMMPS_INT)
      (PyVal.int 1)
    match inner.1 with
    | Except.error e => (Except.error e, dtPair.2 ++ inner.2)
    | Except.ok vl =>
      let r := extract_global_core nat lmp name dt vl
      (r.1, dtPair.2 ++ inner.2 ++ r.2)
  else
    let r := extract_global_core nat lmp name dt (PyVal.int 1)
    (r.1, dtPair.2 ++ r.2)

/-- `lammps.extract_atom` (core.py): auto-detect the datatype when asked;
empty name returns `None`; an unrecognised datatype tag returns `None`
before any native call; otherwise the raw pointer is returned, or `None`
when it is null. -/
def extract_atom (nat : Native) (lmp : Bool) (name : String)
    (dtype : Option Int) : Except PyExc PyVal × List NCall :=
  let dtPair :=
    if dtype = LAMMPS_AUTODETECT then extract_atom_datatype nat lmp name
    else (dtype, [])
  let dt := dtPair.1
  if name.isEmpty then (Except.ok PyVal.none, dtPair.2)
  else if dt = some LAMMPS_INT ∨ dt = some LAMMPS_INT_2D ∨
      dt = some LAMMPS_DOUBLE ∨ dt = some LAMMPS_DOUBLE_2D ∨
      dt = some LAMMPS_INT64 ∨ dt = some LAMMPS_INT64_2D then
    ((if nat.atomAddr name then Except.ok (PyVal.ptr false)
      else Except.ok PyVal.none),
     dtPair.2 ++ [NCall.extractAtomQ lmp name])
  else (Except.ok PyVal.none, dtPair.2)

/-- Run the native `lammps_extract_compute` call under the shim and continue
with the non-nullness of the returned pointer. -/
def runComputeCall (nat : Native) (lmp : Bool) (idn : String) (style ty : Int)
    (k : Bool → Except PyExc PyVal) : Except PyExc PyVal × List NCall :=
  let r := withShim nat lmp
    (Except.ok (nat.computeAddr idn style ty), [NCall.extractComputeQ lmp idn style ty])
  (match r.1 with
   | Except.error e => Except.error e
   | Except.ok a => k a,
   r.2)

/-- `lammps.extract_compute` (core.py).  Note: the scalar and size branches
dereference `ptr[0]` after the shim scope with no null check, so a null
native result raises ctypes `ValueError`; the vector and array branches
return the raw (possibly null) pointer object. -/
def extract_compute (nat : Native) (lmp : Bool) (idn : String)
    (style ty : Int) : Except PyExc PyVal × List NCall :=
  if idn.isEmpty then (Except.ok PyVal.none, [])
  else if ty = LMP_TYPE_SCALAR then
    if style = LMP_STYLE_GLOBAL then
      runComputeCall nat lmp idn style ty (fun a =>
        if a then Except.ok (PyVal.float (nat.computeReadD idn style ty 0))
        else Except.error PyExc.valueErr)
    else if style = LMP_STYLE_ATOM then (Except.ok PyVal.none, [])
    else if style = LMP_STYLE_LOCAL then
      runComputeCall nat lmp idn style ty (fun a =>
        if a then Except.ok (PyVal.int (nat.computeReadI idn style ty 0))
        else Except.error PyExc.valueErr)
    else (Except.ok PyVal.none, [])
  else if ty = LMP_TYPE_VECTOR then
    runComputeCall nat lmp idn style ty (fun a => Except.ok (PyVal.ptr (!a)))
  else if ty = LMP_TYPE_ARRAY then
    runComputeCall nat lmp idn style ty (fun a => Except.ok (PyVal.ptr (!a)))
  else if ty = LMP_SIZE_COLS then
    if style = LMP_STYLE_GLOBAL ∨ style = LMP_STYLE_ATOM ∨
        style = LMP_STYLE_LOCAL then
      runComputeCall nat lmp idn style ty (fun a =>
        if a then Except.ok (PyVal.int (nat.computeReadI idn style ty 0))
        else Except.error PyExc.valueErr)
    else (Except.ok PyVal.none, [])
  else if ty = LMP_SIZE_VECTOR ∨ ty = LMP_SIZE_ROWS then
    if style = LMP_STYLE_GLOBAL ∨ style = LMP_STYLE_LOCAL then
      runComputeCall nat lmp idn style ty (fun a =>
        if a then Except.ok (PyVal.int (nat.computeReadI idn style ty 0))
        else Except.error PyExc.valueErr)
    else (Except.ok PyVal.none, [])
  else (Except.ok PyVal.none, [])

/-- Run the native `lammps_extract_fix` call under the shim and continue with
the non-nullness of the returned pointer. -/
def runFixCall (nat : Native) (lmp : Bool) (idn : String)
    (style ty nrow ncol : Int) (k : Bool → Except PyExc PyVal × List NCall) :
    Except PyExc PyVal × List NCall :=
  let r := withShim nat lmp
    (Except.ok (nat.fixAddr idn style ty nrow ncol),
     [NCall.extractFixQ lmp idn style ty nrow ncol])
  match r.1 with
  | Except.error e => (Except.error e, r.2)
  | Except.ok a =>
    let t := k a
    (t.1, r.2 ++ t.2)

/-- `lammps.extract_fix` (core.py).  For global style with a value type the
wrapper copies `ptr[0]` and then releases the native allocation with
`lammps_free`; a null native result is dereferenced before any free and so
raises ctypes `ValueError`. -/
def extract_fix (nat : Native) (lmp : Bool) (idn : String)
    (style ty nrow ncol : Int) : Except PyExc PyVal × List NCall :=
  if idn.isEmpty then (Except.ok PyVal.none, [])
  else if style = LMP_STYLE_GLOBAL then
    if ty = LMP_TYPE_SCALAR ∨ ty = LMP_TYPE_VECTOR ∨ ty = LMP_TYPE_ARRAY then
      runFixCall nat lmp idn style ty nrow ncol (fun a =>
        if a then
          (Except.ok (PyVal.float (nat.fixReadD idn style ty nrow ncol 0)),
           [NCall.freeQ])
        else (Except.error PyExc.valueErr, []))
    else if ty = LMP_SIZE_VECTOR ∨ ty = LMP_SIZE_ROWS ∨ ty = LMP_SIZE_COLS then
      runFixCall nat lmp idn style ty nrow ncol (fun a =>
        if a then
          (Except.ok (PyVal.int (nat.fixReadI idn style ty nrow ncol 0)), [])
        else (Except.error PyExc.valueErr, []))
    else (Except.ok PyVal.none, [])
  else if style = LMP_STYLE_ATOM then
    if ty = LMP_TYPE_VECTOR ∨ ty = LMP_TYPE_ARRAY ∨ ty = LMP_SIZE_COLS then
      runFixCall nat lmp idn style ty nrow ncol (fun a =>
        if ty = LMP_SIZE_COLS then
          if a then
            (Except.ok (PyVal.int (nat.fixReadI idn style ty nrow ncol 0)), [])
          else (Except.error PyExc.valueErr, [])
        else (Except.ok (PyVal.ptr (!a)), []))
    else (Except.ok PyVal.none, [])
  else if style = LMP_STYLE_LOCAL then
    if ty = LMP_TYPE_VECTOR ∨ ty = LMP_TYPE_ARRAY ∨ ty = LMP_TYPE_SCALAR ∨
        ty = LMP_SIZE_VECTOR ∨ ty = LMP_SIZE_ROWS ∨ ty = LMP_SIZE_COLS then
      runFixCall nat lmp idn style ty nrow ncol (fun a =>
        if ty = LMP_TYPE_VECTOR ∨ ty = LMP_TYPE_ARRAY then
          (Except.ok (PyVal.ptr (!a)), [])
        else if a then
          (Except.ok (PyVal.int (nat.fixReadI idn style ty nrow ncol 0)), [])
        else (Except.error PyExc.valueErr, []))
    else (Except.ok PyVal.none, [])
  else (Except.ok PyVal.none, [])

/-- `lammps.extract_variable` (core.py).  Equal-style: copy `ptr[0]` then
`lammps_free`; a null result returns `None` with no free.  Atom-style: the
local element count is first obtained via `extract_global("nlocal")`, a host
buffer of that many doubles is allocated, the values are copied and the
native allocation freed; a null result returns `None` with no free. -/
def extract_variable (nat : Native) (lmp : Bool) (name : String)
    (group : Option String) (vartype : Int) : Except PyExc PyVal × List NCall :=
  if name.isEmpty then (Except.ok PyVal.none, [])
  else if vartype = LMP_VAR_EQUAL then
    let r := withShim nat lmp
      (Except.ok (nat.varAddr name group), [NCall.extractVariableQ lmp name group])
    match r.1 with
    | Except.error e => (Except.error e, r.2)
    | Except.ok a =>
      if a then
        (Except.ok (PyVal.float (nat.varReadD name group 0)), r.2 ++ [NCall.freeQ])
      else (Except.ok PyVal.none, r.2)
  else if vartype = LMP_VAR_ATOM then
    let nlr := extract_global nat lmp "nlocal" LAMMPS_AUTODETECT
    match nlr.1 with
    | Except.error e => (Except.error e, nlr.2)
    | Except.ok nlv =>
      match nlv with
      | PyVal.int nl =>
        if nl < 0 then (Except.error PyExc.valueErr, nlr.2)
        else
          let r := withShim nat lmp
            (Except.ok (nat.varAddr name group),
             [NCall.extractVariableQ lmp name group])
          match r.1 with
          | Except.error e => (Except.error e, nlr.2 ++ r.2)
          | Except.ok a =>
            if a then
              (Except.ok (PyVal.dbuf
                 ((List.range nl.toNat).map (nat.varReadD name group))),
               nlr.2 ++ r.2 ++ [NCall.freeQ])
            else (Except.ok PyVal.none, nlr.2 ++ r.2)
      | _ => (Except.error PyExc.typeErr, nlr.2)
  else (Except.ok PyVal.none, [])

/-! ### `create_atoms` -/

/-- Python truthiness of an optional-list argument: `None` and the empty
list are falsy. -/
def optTruthy {α : Type} : Option (List α) → Bool
  | some l => !l.isEmpty
  | Option.none => false

/-- `lammps.create_atoms` (core.py): each supplied (truthy) list is sliced to
its required length and slice-assigned into a fresh ctypes array; a list with
fewer entries than required makes that assignment raise, which the source
catches and turns into `return 0` - before any native call.  When all lists
are long enough, `lammps_create_atoms` runs under the shim and its count is
returned. -/
def create_atoms (nat : Native) (lmp : Bool) (n : Nat) (ids : Option (List Int))
    (types : List Int) (x : List Rat) (v : Option (List Rat))
    (image : Option (List Int)) (shrinkexceed : Bool) :
    Except PyExc PyVal × List NCall :=
  if optTruthy ids = true ∧ (ids.getD []).length < n then
    (Except.ok (PyVal.int 0), [])
  else if types.length < n then (Except.ok (PyVal.int 0), [])
  else if x.length < 3 * n then (Except.ok (PyVal.int 0), [])
  else if optTruthy v = true ∧ (v.getD []).length < 3 * n then
    (Except.ok (PyVal.int 0), [])
  else if optTruthy image = true ∧ (image.getD []).length < n then
    (Except.ok (PyVal.int 0), [])
  else
    let idArg := if optTruthy ids then some ((ids.getD []).take n) else Option.none
    let vArg := if optTruthy v then some ((v.getD []).take (3 * n)) else Option.none
    let imgArg :=
      if optTruthy image then some ((image.getD []).take n) else Option.none
    let se : Int := if shrinkexceed then 1 else 0
    withShim nat lmp
      (Except.ok (PyVal.int
        (nat.createAtomsN n idArg (types.take n) (x.take (3 * n)) vArg imgArg se)),
       [NCall.createAtomsQ lmp n])

/-! ### Count-then-enumerate introspection queries -/

/-- `lammps.installed_packages` (core.py), first access (the cached re-read
path returns the stored list with no native calls): query
`lammps_config_package_count`, then fetch `lammps_config_package_name` for
each index `0..count-1` into a 100-byte buffer. -/
def installed_packages (nat : Native) : List String × List NCall :=
  let n := nat.pkgCount
  ((List.range n).map nat.pkgName,
   NCall.pkgCountQ :: (List.range n).map NCall.pkgNameQ)

/-- `lammps.available_styles` (core.py), first access for a category (later
accesses return the cached list): `lammps_style_count` under the shim, then
one shimmed `lammps_style_name` fetch per index `0..count-1`. -/
def available_styles (nat : Native) (lmp : Bool) (category : String) :
    Except PyExc (List String) × List NCall :=
  let r1 := withShim nat lmp
    (Except.ok (nat.styleCount category), [NCall.styleCountQ lmp category])
  match r1.1 with
  | Except.error e => (Except.error e, r1.2)
  | Except.ok n =>
    (Except.ok ((List.range n).map (nat.styleName category)),
     r1.2 ++ (List.range n).flatMap
       (fun i => NCall.styleNameQ lmp category i :: shimTail nat lmp))

/-- The ID categories `available_ids` recognises. -/
def availableIdCategories : List String :=
  ["compute", "dump", "fix", "group", "molecule", "region", "variable"]

/-- `lammps.available_ids` (core.py): for a known category, `lammps_id_count`
then one `lammps_id_name` fetch per index `0..count-1` (no shim); any other
category yields the empty list with no native call. -/
def available_ids (nat : Native) (lmp : Bool) (category : String) :
    List String × List NCall :=
  if category ∈ availableIdCategories then
    let n := nat.idCount category
    ((List.range n).map (nat.idName category),
     NCall.idCountQ lmp category :: (List.range n).map (NCall.idNameQ lmp category))
  else ([], [])

/-- `lammps.available_plugins` (core.py): `lammps_plugin_count`, then one
`lammps_plugin_name` fetch per index `0..count-1` filling the style and name
buffers. -/
def available_plugins (nat : Native) (lmp : Bool) :
    List (String × String) × List NCall :=
  let n := nat.pluginCount
  ((List.range n).map (fun i => (nat.pluginSty i, nat.pluginNam i)),
   NCall.pluginCountQ lmp :: (List.range n).map NCall.pluginNameQ)

/-! ### Concrete native models used to evaluate the claims -/

/-- A quiet engine: no error pending, exception support off, two atoms, all
lookups failing (null pointers), no styles/ids/packages/plugins. -/
def nat0 : Native where
  hasExc := false
  hasErr := false
  errType := 0
  errMsg := []
  natoms := 2
  thermo := fun _ => 0
  setting := fun _ => 0
  setVar := fun _ _ => 0
  gatherAtomsI := fun _ _ => []
  gatherAtomsD := fun _ _ => []
  gatherI := fun _ _ => []
  gatherD := fun _ _ => []
  gatherConcatI := fun _ _ => []
  gatherConcatD := fun _ _ => []
  globalDtype := fun _ => -1
  globalAddr := fun _ => false
  globalReadI := fun _ _ => 0
  globalReadD := fun _ _ => 0
  globalReadS := fun _ => ""
  atomDtype := fun _ => -1
  atomAddr := fun _ => false
  computeAddr := fun _ _ _ => false
  computeReadD := fun _ _ _ _ => 0
  computeReadI := fun _ _ _ _ => 0
  fixAddr := fun _ _ _ _ _ => false
  fixReadD := fun _ _ _ _ _ _ => 0
  fixReadI := fun _ _ _ _ _ _ => 0
  varAddr := fun _ _ => false
  varReadD := fun _ _ _ => 0
  createAtomsN := fun n _ _ _ _ _ _ => Int.ofNat n
  styleCount := fun _ => 0
  styleName := fun _ _ => ""
  idCount := fun _ => 0
  idName := fun _ _ => ""
  pkgCount := 0
  pkgName := fun _ => ""
  pluginCount := 0
  pluginSty := fun _ => ""
  pluginNam := fun _ => ""

/-- A model with an error pending of the collective-abort kind. -/
def natErr : Native :=
  { nat0 with hasExc := true, hasErr := true, errType := 2,
              errMsg := "boom".toList }

/-- A model where fix lookups succeed (non-null native results). -/
def natFix : Native :=
  { nat0 with fixAddr := fun _ _ _ _ _ => true }

/-- A model with one entry in every enumerable category. -/
def natOne : Native :=
  { nat0 with styleCount := fun _ => 1, styleName := fun _ _ => "a",
              idCount := fun _ => 1, idName := fun _ _ => "b",
              pkgCount := 1, pkgName := fun _ => "c",
              pluginCount := 1, pluginSty := fun _ => "d",
              pluginNam := fun _ => "e" }

/-! ### Helper lemmas -/

theorem pyStrip_length_le (l : List Char) : (pyStrip l).length ≤ l.length := by
  unfold pyStrip
  rw [List.length_reverse]
  calc (((l.dropWhile Char.isWhitespace).reverse.dropWhile Char.isWhitespace)).length
      ≤ (l.dropWhile Char.isWhitespace).reverse.length :=
        (List.dropWhile_sublist _).length_le
    _ = (l.dropWhile Char.isWhitespace).length := List.length_reverse _
    _ ≤ l.length := (List.dropWhile_sublist _).length_le

theorem fetchedErrMsg_length_le (nat : Native) : (fetchedErrMsg nat).length ≤ 99 :=
  le_trans (pyStrip_length_le _) (List.length_take_le _ _)

theorem withShim_fst {α : Type} (nat : Native) (lmp : Bool)
    (body : Except PyExc α × List NCall) (h : (nat.hasExc && nat.hasErr) = false) :
    (withShim nat lmp body).1 = body.1 := by
  cases hb : body.1 <;> simp [withShim, exceptionCheckExit, h, hb]

/-! ### C1 — the error-translation shim -/

/-- C1: on scope exit the shim raises iff the library reports exception
support and the engine error flag is set; when it raises (also over an
exception already propagating out of the body), the exception carries the
bounded-buffer error message and is `MPIAbortException` exactly when the
error-kind discriminant is 2, a generic `Exception` otherwise; when it does
not raise, the scope exits as the body left it; and the same behaviour is
observed on a shim-wrapped operation (`command`). -/
theorem exception_shim_spec (nat : Native) (lmp : Bool) (inc : Option PyExc) :
    ((exceptionCheckExit nat Option.none).isSome ↔
      (nat.hasExc = true ∧ nat.hasErr = true))
    ∧ (nat.hasExc = true → nat.hasErr = true →
        exceptionCheckExit nat inc =
          some (if nat.errType = 2 then PyExc.mpiAbort (fetchedErrMsg nat)
                else PyExc.generic (fetchedErrMsg nat)))
    ∧ (¬(nat.hasExc = true ∧ nat.hasErr = true) →
        exceptionCheckExit nat inc = inc)
    ∧ (fetchedErrMsg nat).length ≤ 99
    ∧ (nat.hasExc = true → nat.hasErr = true →
        (command nat lmp "run").1 = Except.error (lammpsException nat)) := by
  refine ⟨?_, ?_, ?_, fetchedErrMsg_length_le nat, ?_⟩
  · cases he : nat.hasExc <;> cases hr : nat.hasErr <;>
      simp [exceptionCheckExit, he, hr]
  · intro he hr
    simp [exceptionCheckExit, lammpsException, he, hr]
  · intro hne
    cases he : nat.hasExc <;> cases hr : nat.hasErr
    · simp [exceptionCheckExit, he, hr]
    · simp [exceptionCheckExit, he, hr]
    · simp [exceptionCheckExit, he, hr]
    · exact absurd ⟨he, hr⟩ hne
  · intro he hr
    simp [command, withShim, exceptionCheckExit, he, hr,
      show ("run".isEmpty) = false from rfl]

theorem exception_shim_spec_witness :
    exceptionCheckExit natErr Option.none =
      some (if natErr.errType = 2 then PyExc.mpiAbort (fetchedErrMsg natErr)
            else PyExc.generic (fetchedErrMsg natErr)) :=
  (exception_shim_spec natErr true Option.none).2.1 rfl rfl

/-! ### C2 — empty text inputs -/

/-- C2 counterexample: `gather_atoms` with an empty (falsy) name does not
short-circuit: it still invokes the native entry points `lammps_get_natoms`
and `lammps_gather_atoms`, and its result is a gathered buffer, not the
`None` sentinel. -/
theorem gather_atoms_empty_name_invokes_native :
    (gather_atoms nat0 true "" 1 3).1
      = Except.ok (PyVal.dbuf (List.replicate 6 0))
    ∧ NCall.getNatoms true ∈ (gather_atoms nat0 true "" 1 3).2
    ∧ NCall.gatherAtomsQ true "" 1 3 ∈ (gather_atoms nat0 true "" 1 3).2 := by
  refine ⟨rfl, ?_, ?_⟩ <;> decide

/-- C2 amended: the empty-text short-circuit holds for `command`, `file`,
`get_thermo`, `extract_setting` and `set_variable` (for the latter both for
the name and for the value, with sentinel `-1`), with no native entry point
invoked; but the gather family does not short-circuit: with an empty name it
still invokes `lammps_get_natoms` (and passes the name through to the native
gather call). -/
theorem text_input_short_circuit_amended (nat : Native) (lmp : Bool) (ty : Int)
    (count : Nat) (value : String) :
    command nat lmp "" = (Except.ok PyVal.none, [])
    ∧ file nat lmp "" = (Except.ok PyVal.none, [])
    ∧ get_thermo nat lmp "" = (Except.ok PyVal.none, [])
    ∧ extract_setting nat lmp "" = (Except.ok PyVal.none, [])
    ∧ set_variable nat lmp "" value = (Except.ok (PyVal.int (-1)), [])
    ∧ set_variable nat lmp "x" "" = (Except.ok (PyVal.int (-1)), [])
    ∧ NCall.getNatoms lmp ∈ (gather_atoms nat lmp "" ty count).2
    ∧ NCall.getNatoms lmp ∈ (gather nat lmp "" ty count).2
    ∧ NCall.getNatoms lmp ∈ (gather_concat nat lmp "" ty count).2 := by
  refine ⟨rfl, rfl, rfl, rfl, rfl, rfl, ?_, ?_, ?_⟩ <;>
    simp [gather_atoms, gather, gather_concat]

/-! ### C3 — `close` is idempotent -/

/-- C3: a second `close` performs no native call and leaves the state as the
first left it; across a double close the native destroy entry point is
invoked at most once; and `close` on a wrapper that was never opened (or is
already closed, `opened = 0`) performs no native call at all. -/
theorem close_idempotent (w : Wrapper) :
    (close (close w).1).2 = []
    ∧ (close (close w).1).1 = (close w).1
    ∧ ((close w).2 ++ (close (close w).1).2).countP isDestroyCall ≤ 1
    ∧ (close { lmp := w.lmp, opened := 0 }).2 = [] := by
  by_cases h : w.opened = 0 <;> simp [close, isDestroyCall, h]

/-! ### C10 — unknown ID category -/

/-- C10: `available_ids` on a category outside the seven known ones returns
the empty list and performs no native call (no count query, no name query). -/
theorem available_ids_unknown_category (nat : Native) (lmp : Bool)
    (category : String) (h : category ∉ availableIdCategories) :
    available_ids nat lmp category = ([], []) := by
  simp [available_ids, h]

theorem available_ids_unknown_category_witness :
    available_ids nat0 true "bogus" = ([], []) :=
  available_ids_unknown_category nat0 true "bogus" (by decide)

/-! ### C4 — unknown property names -/

/-- C4: evaluation at an unknown name (the native side reports no datatype
and returns a null pointer, with no error flag set).  `extract_global`,
`extract_atom` and `extract_variable` return `None` as claimed, but
`extract_compute` on a global scalar dereferences the null result and raises
ctypes `ValueError` (`NULL pointer access`), and on a vector request returns
the raw null pointer object - both contradicting its own docstring, which
promises `None` for an unrecognised compute id. -/
theorem extract_compute_null_result_raises :
    (extract_compute nat0 true "does_not_exist" LMP_STYLE_GLOBAL LMP_TYPE_SCALAR).1
      = Except.error PyExc.valueErr
    ∧ (extract_compute nat0 true "does_not_exist" LMP_STYLE_GLOBAL LMP_TYPE_VECTOR).1
      = Except.ok (PyVal.ptr true)
    ∧ (extract_global nat0 true "does_not_exist" LAMMPS_AUTODETECT).1
      = Except.ok PyVal.none
    ∧ (extract_atom nat0 true "does_not_exist" LAMMPS_AUTODETECT).1
      = Except.ok PyVal.none
    ∧ (extract_variable nat0 true "does_not_exist" Option.none LMP_VAR_EQUAL).1
      = Except.ok PyVal.none := by
  refine ⟨rfl, rfl, rfl, rfl, rfl⟩

/-! ### C5 — `create_atoms` with short input lists -/

/-- C5: if any supplied (truthy) list has fewer entries than required
(`n` for ids, types and image flags, `3*n` for coordinates and velocities),
`create_atoms` returns 0 created without invoking any native entry point. -/
theorem create_atoms_short_input_zero (nat : Native) (lmp : Bool) (n : Nat)
    (ids : Option (List Int)) (types : List Int) (x : List Rat)
    (v : Option (List Rat)) (image : Option (List Int)) (se : Bool)
    (h : (optTruthy ids = true ∧ (ids.getD []).length < n)
       ∨ types.length < n
       ∨ x.length < 3 * n
       ∨ (optTruthy v = true ∧ (v.getD []).length < 3 * n)
       ∨ (optTruthy image = true ∧ (image.getD []).length < n)) :
    create_atoms nat lmp n ids types x v image se
      = (Except.ok (PyVal.int 0), []) := by
  unfold create_atoms
  split
  · rfl
  next h1 =>
    split
    · rfl
    next h2 =>
      split
      · rfl
      next h3 =>
        split
        · rfl
        next h4 =>
          split
          · rfl
          next h5 =>
            rcases h with h | h | h | h | h
            exacts [(h1 h).elim, (h2 h).elim, (h3 h).elim, (h4 h).elim,
                    (h5 h).elim]

theorem create_atoms_short_input_zero_witness :
    create_atoms nat0 true 2 Option.none [1] [0, 0, 0, 0, 0, 0] Option.none
        Option.none false
      = (Except.ok (PyVal.int 0), []) :=
  create_atoms_short_input_zero nat0 true 2 Option.none [1] [0, 0, 0, 0, 0, 0]
    Option.none Option.none false (Or.inr (Or.inl (by decide)))

/-! ### C6 — gather buffer sizes -/

/-- C6: in a run where the shim does not fire, each gather-family call with
the continuous kind tag (`type == 1`) returns a buffer of exactly
`count * natoms` doubles, with the discrete kind tag (`type == 0`) a buffer
of exactly `count * natoms` integers, and with any other kind tag `None`. -/
theorem gather_family_buffer_sizes (nat : Native) (lmp : Bool) (name : String)
    (count : Nat) (h : (nat.hasExc && nat.hasErr) = false) :
    (∃ b1 b2 b3 : List Rat,
        (gather nat lmp name 1 count).1 = Except.ok (PyVal.dbuf b1)
      ∧ b1.length = count * nat.natoms
      ∧ (gather_atoms nat lmp name 1 count).1 = Except.ok (PyVal.dbuf b2)
      ∧ b2.length = count * nat.natoms
      ∧ (gather_concat nat lmp name 1 count).1 = Except.ok (PyVal.dbuf b3)
      ∧ b3.length = count * nat.natoms)
    ∧ (∃ c1 c2 c3 : List Int,
        (gather nat lmp name 0 count).1 = Except.ok (PyVal.ibuf c1)
      ∧ c1.length = count * nat.natoms
      ∧ (gather_atoms nat lmp name 0 count).1 = Except.ok (PyVal.ibuf c2)
      ∧ c2.length = count * nat.natoms
      ∧ (gather_concat nat lmp name 0 count).1 = Except.ok (PyVal.ibuf c3)
      ∧ c3.length = count * nat.natoms)
    ∧ (∀ ty : Int, ty ≠ 0 → ty ≠ 1 →
        (gather nat lmp name ty count).1 = Except.ok PyVal.none
      ∧ (gather_atoms nat lmp name ty count).1 = Except.ok PyVal.none
      ∧ (gather_concat nat lmp name ty count).1 = Except.ok PyVal.none) := by
  refine ⟨⟨writeBuf (List.replicate (count * nat.natoms) 0) (nat.gatherD name count),
          writeBuf (List.replicate (count * nat.natoms) 0) (nat.gatherAtomsD name count),
          writeBuf (List.replicate (count * nat.natoms) 0) (nat.gatherConcatD name count),
          ?_, ?_, ?_, ?_, ?_, ?_⟩,
         ⟨writeBuf (List.replicate (count * nat.natoms) 0) (nat.gatherI name count),
          writeBuf (List.replicate (count * nat.natoms) 0) (nat.gatherAtomsI name count),
          writeBuf (List.replicate (count * nat.natoms) 0) (nat.gatherConcatI name count),
          ?_, ?_, ?_, ?_, ?_, ?_⟩, ?_⟩
  · simp [gather, withShim_fst _ _ _ h]
  · exact (writeBuf_length _ _).trans (List.length_replicate _ _)
  · simp [gather_atoms, withShim_fst _ _ _ h]
  · exact (writeBuf_length _ _).trans (List.length_replicate _ _)
  · simp [gather_concat, withShim_fst _ _ _ h]
  · exact (writeBuf_length _ _).trans (List.length_replicate _ _)
  · simp [gather, withShim_fst _ _ _ h]
  · exact (writeBuf_length _ _).trans (List.length_replicate _ _)
  · simp [gather_atoms, withShim_fst _ _ _ h]
  · exact (writeBuf_length _ _).trans (List.length_replicate _ _)
  · simp [gather_concat, withShim_fst _ _ _ h]
  · exact (writeBuf_length _ _).trans (List.length_replicate _ _)
  · intro ty h0 h1
    refine ⟨?_, ?_, ?_⟩ <;>
      simp [gather, gather_atoms, gather_concat, withShim_fst _ _ _ h, h0, h1]

theorem gather_family_buffer_sizes_witness :
    ∃ b1 b2 b3 : List Rat,
        (gather nat0 true "x" 1 3).1 = Except.ok (PyVal.dbuf b1)
      ∧ b1.length = 3 * nat0.natoms
      ∧ (gather_atoms nat0 true "x" 1 3).1 = Except.ok (PyVal.dbuf b2)
      ∧ b2.length = 3 * nat0.natoms
      ∧ (gather_concat nat0 true "x" 1 3).1 = Except.ok (PyVal.dbuf b3)
      ∧ b3.length = 3 * nat0.natoms :=
  (gather_family_buffer_sizes nat0 true "x" 3 rfl).1

/-! ### C7 — ownership of native-allocated result buffers -/

/-- Recogniser for the native `lammps_free` entry point in a trace. -/
def isFreeCall : NCall → Bool
  | NCall.freeQ => true
  | _ => false

/-- C7: for `extract_fix` (global style, value type) with a non-null native
result the value is copied and `lammps_free` is called exactly once; for
`extract_variable` (equal style) a null native result yields `None` with no
free, as claimed.  But for `extract_fix` a null native result is dereferenced
before any free: the wrapper raises ctypes `ValueError` instead of returning
`None` (its docstring promises `None` for an unrecognised fix id); no free is
performed on that path. -/
theorem extract_fix_free_discipline_eval :
    (extract_fix natFix true "afix" LMP_STYLE_GLOBAL LMP_TYPE_SCALAR 0 0).1
      = Except.ok (PyVal.float 0)
    ∧ ((extract_fix natFix true "afix" LMP_STYLE_GLOBAL LMP_TYPE_SCALAR 0 0).2.countP
        isFreeCall) = 1
    ∧ (extract_fix nat0 true "nofix" LMP_STYLE_GLOBAL LMP_TYPE_SCALAR 0 0).1
      = Except.error PyExc.valueErr
    ∧ ((extract_fix nat0 true "nofix" LMP_STYLE_GLOBAL LMP_TYPE_SCALAR 0 0).2.countP
        isFreeCall) = 0
    ∧ (extract_variable nat0 true "novar" Option.none LMP_VAR_EQUAL).1
      = Except.ok PyVal.none
    ∧ ((extract_variable nat0 true "novar" Option.none LMP_VAR_EQUAL).2.countP
        isFreeCall) = 0 := by
  refine ⟨rfl, ?_, rfl, ?_, rfl, ?_⟩ <;> decide

/-! ### C8 — count-then-enumerate introspection -/

/-- The index of a `lammps_style_name` fetch, when a call is one. -/
def styleIdxOf : NCall → Option Nat
  | NCall.styleNameQ _ _ i => some i
  | _ => Option.none

/-- The index of a `lammps_id_name` fetch, when a call is one. -/
def idIdxOf : NCall → Option Nat
  | NCall.idNameQ _ _ i => some i
  | _ => Option.none

/-- The index of a `lammps_config_package_name` fetch, when a call is one. -/
def pkgIdxOf : NCall → Option Nat
  | NCall.pkgNameQ i => some i
  | _ => Option.none

/-- The index of a `lammps_plugin_name` fetch, when a call is one. -/
def pluginIdxOf : NCall → Option Nat
  | NCall.pluginNameQ i => some i
  | _ => Option.none

theorem filterMap_styleIdxOf_shimTail (nat : Native) (lmp : Bool) :
    (shimTail nat lmp).filterMap styleIdxOf = [] := by
  unfold shimTail
  split
  · split <;> rfl
  · rfl

theorem filterMap_map_eq_self {β : Type} (f : β → Option Nat) (g : Nat → β)
    (hg : ∀ i, f (g i) = some i) (l : List Nat) :
    (l.map g).filterMap f = l := by
  induction l with
  | nil => rfl
  | cons a t ih => simp [hg, ih]

theorem filterMap_flatMap_eq_self {β : Type} (f : β → Option Nat)
    (g : Nat → List β) (hg : ∀ i, (g i).filterMap f = [i]) (l : List Nat) :
    (l.flatMap g).filterMap f = l := by
  induction l with
  | nil => rfl
  | cons a t ih => simp [List.flatMap_cons, List.filterMap_append, hg, ih]

theorem nodup_map_range {β : Type} (g : Nat → β) (n : Nat)
    (hg : ∀ i j, i < n → j < n → g i = g j → i = j) :
    ((List.range n).map g).Nodup :=
  List.Nodup.map_on
    (fun i hi j hj hEq => hg i j (List.mem_range.mp hi) (List.mem_range.mp hj) hEq)
    (List.nodup_range n)

/-- C8: for each count-then-enumerate query - `available_styles`,
`available_ids` (on a known category), `installed_packages`,
`available_plugins` - the wrapper fetches exactly the indices `0..count-1`
(the enumeration indices appearing in the native-call trace are precisely
`List.range count`, so the out-of-range index `count` is never queried), and
the returned list has exactly `count` entries, all distinct provided the
native enumeration assigns distinct names to distinct in-range indices. -/
theorem count_then_enumerate_spec (nat : Native) (lmp : Bool) (category : String)
    (hstyle : ∀ i j, i < nat.styleCount category → j < nat.styleCount category →
      nat.styleName category i = nat.styleName category j → i = j)
    (hid : ∀ i j, i < nat.idCount category → j < nat.idCount category →
      nat.idName category i = nat.idName category j → i = j)
    (hpkg : ∀ i j, i < nat.pkgCount → j < nat.pkgCount →
      nat.pkgName i = nat.pkgName j → i = j)
    (hplug : ∀ i j, i < nat.pluginCount → j < nat.pluginCount →
      (nat.pluginSty i, nat.pluginNam i) = (nat.pluginSty j, nat.pluginNam j) →
      i = j)
    (hcat : category ∈ availableIdCategories)
    (herr : (nat.hasExc && nat.hasErr) = false) :
    (∃ l, (available_styles nat lmp category).1 = Except.ok l
       ∧ l.length = nat.styleCount category ∧ l.Nodup)
    ∧ ((available_styles nat lmp category).2.filterMap styleIdxOf
         = List.range (nat.styleCount category))
    ∧ (available_ids nat lmp category).1.length = nat.idCount category
    ∧ (available_ids nat lmp category).1.Nodup
    ∧ ((available_ids nat lmp category).2.filterMap idIdxOf
         = List.range (nat.idCount category))
    ∧ (installed_packages nat).1.length = nat.pkgCount
    ∧ (installed_packages nat).1.Nodup
    ∧ ((installed_packages nat).2.filterMap pkgIdxOf = List.range nat.pkgCount)
    ∧ (available_plugins nat lmp).1.length = nat.pluginCount
    ∧ (available_plugins nat lmp).1.Nodup
    ∧ ((available_plugins nat lmp).2.filterMap pluginIdxOf
         = List.range nat.pluginCount) := by
  have hsty1 : (available_styles nat lmp category).1
      = Except.ok ((List.range (nat.styleCount category)).map
          (nat.styleName category)) := by
    simp [available_styles, withShim, exceptionCheckExit, herr]
  have hsty2 : (available_styles nat lmp category).2
      = ([NCall.styleCountQ lmp category] ++ shimTail nat lmp)
        ++ (List.range (nat.styleCount category)).flatMap
            (fun i => NCall.styleNameQ lmp category i :: shimTail nat lmp) := by
    simp [available_styles, withShim, exceptionCheckExit, herr]
  refine ⟨⟨(List.range (nat.styleCount category)).map (nat.styleName category),
          hsty1, by simp, nodup_map_range _ _ hstyle⟩, ?_, ?_, ?_, ?_, ?_, ?_, ?_,
          ?_, ?_, ?_⟩
  · rw [hsty2, List.filterMap_append, List.filterMap_append,
      filterMap_styleIdxOf_shimTail,
      filterMap_flatMap_eq_self styleIdxOf _
        (fun i => by simp [styleIdxOf, List.filterMap_cons,
          filterMap_styleIdxOf_shimTail])]
    rfl
  · simp [available_ids, hcat]
  · simp only [available_ids, if_pos hcat]
    exact nodup_map_range _ _ hid
  · simp only [available_ids, if_pos hcat, List.filterMap_cons]
    exact filterMap_map_eq_self idIdxOf (NCall.idNameQ lmp category)
      (fun i => rfl) _
  · simp [installed_packages]
  · exact nodup_map_range _ _ hpkg
  · simp only [installed_packages, List.filterMap_cons]
    exact filterMap_map_eq_self pkgIdxOf NCall.pkgNameQ (fun i => rfl) _
  · simp [available_plugins]
  · exact nodup_map_range _ _ hplug
  · simp only [available_plugins, List.filterMap_cons]
    exact filterMap_map_eq_self pluginIdxOf NCall.pluginNameQ (fun i => rfl) _

theorem count_then_enumerate_spec_witness :
    (installed_packages natOne).1.length = natOne.pkgCount
    ∧ (installed_packages natOne).1.Nodup
    ∧ ((installed_packages natOne).2.filterMap pkgIdxOf
        = List.range natOne.pkgCount) :=
  have hone : ∀ i j : Nat, i < 1 → j < 1 → i = j := by omega
  have hmain := count_then_enumerate_spec natOne true "fix"
    (fun i j hi hj _ => hone i j hi hj) (fun i j hi hj _ => hone i j hi hj)
    (fun i j hi hj _ => hone i j hi hj) (fun i j hi hj _ => hone i j hi hj)
    (by decide) rfl
  ⟨hmain.2.2.2.2.2.1, hmain.2.2.2.2.2.2.1, hmain.2.2.2.2.2.2.2.1⟩

/-! ### C9 — operations on a closed handle -/

/-- C9 counterexample: on a wrapper that has been closed (null handle),
`command` is not an error - the native `lammps_command` entry point is
invoked carrying the null handle and the call returns normally. -/
theorem command_after_close_counterexample :
    NCall.cmd false "run" ∈ (command nat0 (close ⟨true, 1⟩).1.lmp "run").2
    ∧ (command nat0 (close ⟨true, 1⟩).1.lmp "run").1 = Except.ok PyVal.none := by
  refine ⟨?_, rfl⟩
  decide

/-- C9 amended: after `close` the handle is null, and invoking an operation
such as `command` or `get_thermo` does not raise any closed-handle error -
the wrapper has no such guard - but instead invokes the native entry point
passing the null handle. -/
theorem ops_after_close_null_handle (w : Wrapper) (nat : Native)
    (cmd nm : String) (hc : cmd.isEmpty = false) (hn : nm.isEmpty = false) :
    (close w).1.lmp = false
    ∧ NCall.cmd false cmd ∈ (command nat (close w).1.lmp cmd).2
    ∧ NCall.getThermo false nm ∈ (get_thermo nat (close w).1.lmp nm).2 := by
  refine ⟨rfl, ?_, ?_⟩ <;>
    simp [command, get_thermo, close, withShim, hc, hn]

theorem ops_after_close_null_handle_witness :
    (close ⟨true, 1⟩).1.lmp = false
    ∧ NCall.cmd false "run all" ∈ (command nat0 (close ⟨true, 1⟩).1.lmp "run all").2
    ∧ NCall.getThermo false "pe" ∈ (get_thermo nat0 (close ⟨true, 1⟩).1.lmp "pe").2 :=
  ops_after_close_null_handle ⟨true, 1⟩ nat0 "run all" "pe" rfl rfl

end Lammps
